import Mathlib

/-!
# A shallow embedding of `src/doorbell.py`

This file models the doorbell MQTT gateway script: the component/topic
model (`Component`, `ButtonComponent`, `VideoSensor`, `Camera`), the
discovery-document builder, the device lifecycle (`setup`, `shutdown`,
`publish_availability`), the GPIO pulse performed by
`ButtonComponent.handle_command`, and the inbound message dispatch of the
`on_message` callback.  Side effects (GPIO calls, MQTT publishes, sleeps,
process management) are modelled as explicit event traces; durations are
modelled as rationals (Python passes float seconds to `time.sleep`; the
script only ever uses exact decimal constants).  The paho-mqtt client run
via `loop_start` delivers inbound messages sequentially on one network
thread, so dispatch is modelled as a sequential loop over a queue of
timestamped messages.
-/

set_option maxRecDepth 40000

namespace Doorbell

/-! ### Python string helpers

`str.lower` and `str.replace(" ", "_")`, as used by `Component.object_id`,
and `str.startswith`, as used by `on_message`.  They are written over the
character list of the string so that they compute by structural recursion
(component names in this system are ASCII, where `Char.toLower` agrees
with Python `str.lower`). -/

def py_lower (s : String) : String := String.mk (s.data.map Char.toLower)

def py_replace_space (s : String) : String :=
  String.mk (s.data.map (fun c => if c = ' ' then '_' else c))

def py_startswith (s pre : String) : Bool := List.isPrefixOf pre.data s.data

/-! ### Component model (`doorbell.py` lines 27-85)

A `Comp` is one entry of `DoorBellDevice.components`: the common base
state is the `name` (the `parent_device` back-reference is implicit: all
components belong to the single `DoorBellDevice`), and the variant state
of each subclass is a `CompKind`. -/

/-- The gpiozero `Button` input device held by a `ButtonComponent`:
`Button(gpio_pin, pull_up=False)` with `when_pressed` set to
`on_button_press` (`configure_input_button`). -/
structure InputButtonCfg where
  pin : Nat
  pull_up : Bool
  when_pressed_armed : Bool
deriving DecidableEq

/-- Variant state: `ButtonComponent` (gpio pin, `active_time`, and its
gpiozero input device, `none` while closed), `VideoSensor`, `Camera`. -/
inductive CompKind where
  | button (gpio_pin : Nat) (active_time : ℚ) (input_button : Option InputButtonCfg)
  | videoSensor (gpio_pin : Nat)
  | camera
deriving DecidableEq

structure Comp where
  name : String
  kind : CompKind
deriving DecidableEq

/-- Class attribute `PLATFORM` of each `Component` subclass. -/
def PLATFORM : CompKind → String
  | .button _ _ _ => "button"
  | .videoSensor _ => "binary_sensor"
  | .camera => "camera"

/-- Class attribute `SUBTOPICS` (`Camera` overrides the base value). -/
def SUBTOPICS : CompKind → List String
  | .camera => ["availability", "json_attributes"]
  | _ => ["state", "availability", "command"]

/-- Class attribute `TOPIC_HANDLING` (`VideoSensor` and `Camera` override
the base value with `[]`). -/
def TOPIC_HANDLING : CompKind → List String
  | .button _ _ _ => ["state", "command"]
  | _ => []

def ROOT_TOPIC : String := "home/doorbell"

def DEVICE_UNIQUE_ID : String := "doorbell1234"

/-- `Component.object_id`: `self.name.lower().replace(' ', '_')`. -/
def object_id (name : String) : String := py_replace_space (py_lower name)

/-- `Component.root_topic`: `f"{self.parent_device.ROOT_TOPIC}/{self.object_id}"`. -/
def root_topic (c : Comp) : String := ROOT_TOPIC ++ "/" ++ object_id c.name

/-- `Component.state_topic`. -/
def state_topic (c : Comp) : String := root_topic c ++ "/state"

/-- `Component.command_topic`. -/
def command_topic (c : Comp) : String := root_topic c ++ "/command"

/-- `Component.subtopics_dict` (and the `Camera` override, which adds the
key `"topic"` mapped to `root_topic/data`).  Python dicts preserve
insertion order, so the dict is an association list. -/
def subtopics_dict (c : Comp) : List (String × String) :=
  let base := (SUBTOPICS c.kind).map (fun st => (st ++ "_topic", root_topic c ++ "/" ++ st))
  match c.kind with
  | .camera => base ++ [("topic", root_topic c ++ "/data")]
  | _ => base

/-- Python dict lookup `d[k]` as an `Option` (a `none` is a `KeyError`). -/
def dict_get (d : List (String × String)) (k : String) : Option String :=
  (d.find? (fun p => p.1 == k)).map (fun p => p.2)

/-- One value of the merged `cmps` map of the discovery document. -/
structure CompDiscovery where
  p : String
  name : String
  topics : List (String × String)
  object_id : String
  unique_id : String
deriving DecidableEq

/-- `Component.component_discovery_payload`:
`{object_id: {"p": PLATFORM, "name": name, **subtopics_dict(),
"object_id": object_id, "unique_id": DEVICE_UNIQUE_ID_objectid}}`. -/
def component_discovery_payload (c : Comp) : String × CompDiscovery :=
  (object_id c.name,
   { p := PLATFORM c.kind
     name := c.name
     topics := subtopics_dict c
     object_id := object_id c.name
     unique_id := DEVICE_UNIQUE_ID ++ "_" ++ object_id c.name })

/-! ### Device and discovery document (`doorbell.py` lines 184-232) -/

structure Device where
  components : List Comp
deriving DecidableEq

/-- The hard-coded `"dev"` block of `DoorBellDevice.discovery_payload`. -/
structure DevBlock where
  ids : String
  name : String
  mf : String
  mdl : String
  sw : String
  sn : String
  hw : String
deriving DecidableEq

/-- The hard-coded `"o"` block of `DoorBellDevice.discovery_payload`. -/
structure OriginBlock where
  name : String
  sw : String
  url : String
deriving DecidableEq

structure DiscoveryDoc where
  dev : DevBlock
  o : OriginBlock
  cmps : List (String × CompDiscovery)
  qos : Nat
deriving DecidableEq

/-- Python `dict.update` with a single-entry dict: overwrite the value in
place if the key is present, otherwise append the entry. -/
def dict_update (d : List (String × CompDiscovery)) (kv : String × CompDiscovery) :
    List (String × CompDiscovery) :=
  if d.any (fun p => p.1 == kv.1) then
    d.map (fun p => if p.1 == kv.1 then (p.1, kv.2) else p)
  else d ++ [kv]

/-- `DoorBellDevice.discovery_payload`: fold `dict.update` of every
component discovery fragment into `components_dict`, then build the
document with the hard-coded device and origin blocks and `"qos": 1`. -/
def discovery_payload (d : Device) : DiscoveryDoc :=
  { dev := { ids := DEVICE_UNIQUE_ID, name := "Interfono", mf := "PRIM, S.A.",
             mdl := "UltraGuard", sw := "1.0", sn := "1234567890", hw := "v1" }
    o := { name := "PRIM System", sw := "0.1", url := "https://blog.casalprim.xyz" }
    cmps := d.components.foldl (fun acc c => dict_update acc (component_discovery_payload c)) []
    qos := 1 }

/-! ### ButtonComponent construction (`doorbell.py` lines 87-99) -/

/-- Python runtime errors the script can raise. -/
inductive PyError where
  | attributeError (attr : String)
deriving DecidableEq

/-- Instance attribute lookup `self.<a>`: an `AttributeError` when the
attribute has not been assigned yet. -/
def lookup_attr (attrs : List (String × Nat)) (a : String) : Except PyError Nat :=
  match attrs.find? (fun p => p.1 == a) with
  | some p => .ok p.2
  | none => .error (.attributeError a)

/-- `ButtonComponent.__init__(self, parent_device, gpio_pin, name=None,
active_time=0.2)`.  The body first runs
`if name is None: name = f"Button{self.gpio_pin}"` — at this point no
instance attribute has been assigned yet, so the `self.gpio_pin` read is a
lookup in an empty attribute store.  Then `super().__init__` stores the
name, `active_time` and `gpio_pin` are stored, and
`configure_input_button` opens `Button(gpio_pin, pull_up=False)` and arms
`when_pressed`. -/
def buttonComponentInit (gpio_pin : Nat) (name : Option String) (active_time : ℚ) :
    Except PyError Comp := do
  let selfAttrs : List (String × Nat) := []
  let n ← match name with
    | none => (lookup_attr selfAttrs "gpio_pin").map (fun p => "Button" ++ toString p)
    | some n => pure n
  pure { name := n
         kind := .button gpio_pin active_time
                  (some { pin := gpio_pin, pull_up := false, when_pressed_armed := true }) }

/-- `DoorBellDevice.add_button(gpiopin, button_name=None)`: construct a
`ButtonComponent` (default `active_time=0.2`) and append it to
`self.components`.  There is no duplicate check of any kind. -/
def add_button (d : Device) (gpiopin : Nat) (button_name : Option String) :
    Except PyError (Device × Comp) :=
  (buttonComponentInit gpiopin button_name 0.2).map
    (fun b => ({ d with components := d.components ++ [b] }, b))

/-! ### The PRESS pulse (`ButtonComponent.handle_command`, lines 105-115) -/

/-- GPIO and logging actions performed by `handle_command`. -/
inductive GpioAction where
  | closeInput (pin : Nat)
  | openOutput (pin : Nat) (active_high : Bool)
  | driveOn (pin : Nat)
  | sleep (t : ℚ)
  | driveOff (pin : Nat)
  | closeOutput (pin : Nat)
  | openInput (pin : Nat) (pull_up : Bool)
  | armWhenPressed (pin : Nat)
  | logWarning (msg : String)
deriving DecidableEq

/-- `Component.handle_command` (the base method is `pass`) together with
the `ButtonComponent` override, as the list of performed actions plus the
updated component state.  For `"PRESS"` the override runs
`self.input_button.close()`, opens
`DigitalOutputDevice(gpio_pin, active_high=False)`, calls `.on()`, sleeps
`active_time`, calls `.off()`, closes the output on leaving the `with`
block, and finally `configure_input_button()` reopens
`Button(gpio_pin, pull_up=False)` and re-arms `when_pressed`.  Any other
payload only logs a warning. -/
def handle_command (c : Comp) (payload : String) : List GpioAction × Comp :=
  match c.kind with
  | .button pin a _ =>
    if payload = "PRESS" then
      ([.closeInput pin, .openOutput pin false, .driveOn pin, .sleep a,
        .driveOff pin, .closeOutput pin, .openInput pin false, .armWhenPressed pin],
       { c with kind := .button pin a
                  (some { pin := pin, pull_up := false, when_pressed_armed := true }) })
    else
      ([.logWarning ("Unknown command received: " ++ payload)], c)
  | _ => ([], c)

/-! ### Availability and shutdown (`doorbell.py` lines 244-252 and 279-285) -/

/-- Observable steps of `publish_availability` and `shutdown`.  A publish
is fire-and-forget: the paho client returns a result code that the script
ignores, recorded here as the `ok` flag. -/
inductive LifeEv where
  | pub (topic : String) (payload : String) (retain : Bool) (ok : Bool)
  | keyError (k : String)
  | releaseComponents
  | stopGo2rtc
  | loopStop
  | disconnect
deriving DecidableEq

/-- `DoorBellDevice.publish_availability(payload)`: publish on the device
availability topic, then on
`component.subtopics_dict()["availability_topic"]` for each component in
order.  `outcome n` is the broker result of the n-th publish; the code
never inspects it.  A missing dict key would be a Python `KeyError`. -/
def publish_availability (d : Device) (payload : String) (outcome : Nat → Bool) :
    List LifeEv :=
  .pub (ROOT_TOPIC ++ "/availability") payload true (outcome 0) ::
  d.components.enum.map (fun p =>
    match dict_get (subtopics_dict p.2) "availability_topic" with
    | some t => .pub t payload true (outcome (p.1 + 1))
    | none => .keyError "availability_topic")

/-- `DoorBellDevice.shutdown`: `publish_availability("offline")`, then
`del self.components` (dropping every gpiozero device and releasing its
pin), then `stop_go2rtc()`, `client.loop_stop()`, `client.disconnect()`. -/
def shutdown (d : Device) (outcome : Nat → Bool) : List LifeEv :=
  publish_availability d "offline" outcome ++
  [.releaseComponents, .stopGo2rtc, .loopStop, .disconnect]

/-! ### Camera snapshot (`Camera.publish_frame`, lines 147-182) -/

/-- Observable steps of `publish_frame`.  The frame is a byte string,
modelled as a list of byte values. -/
inductive CamEv where
  | logCaptureError (stderr : String)
  | writeSnapshotFile (bytes : List Nat)
  | pubFrame (topic : String) (bytes : List Nat)
  | pubAttrs (topic : String) (json : String)
  | logInfo (msg : String)
  | keyError (k : String)
deriving DecidableEq

/-- `Camera.publish_frame` of the camera named `cam_name`.  The ffmpeg
subprocess is an external collaborator: `capture` is `.ok` with the bytes
it wrote to stdout, or `.error` with its stderr when it exited nonzero
(`subprocess.CalledProcessError`); on that error the method prints and
returns before any publish.  On success it writes `snapshot.jpg`, then
publishes the frame on `subtopics_dict()["topic"]` and the attributes
JSON (`json.dumps({"published_at": now})` where `now` is
`datetime.datetime.today().isoformat()`) on
`subtopics_dict()["json_attributes_topic"]`. -/
def publish_frame (cam_name : String) (capture : Except String (List Nat)) (now : String) :
    List CamEv :=
  let c : Comp := { name := cam_name, kind := .camera }
  match capture with
  | .error stderr => [.logCaptureError stderr]
  | .ok payload =>
    match dict_get (subtopics_dict c) "topic" with
    | none => [.writeSnapshotFile payload, .keyError "topic"]
    | some dataTopic =>
      match dict_get (subtopics_dict c) "json_attributes_topic" with
      | none => [.writeSnapshotFile payload, .pubFrame dataTopic payload,
                 .keyError "json_attributes_topic"]
      | some attrsTopic =>
        [.writeSnapshotFile payload,
         .pubFrame dataTopic payload,
         .pubAttrs attrsTopic ("\x7b\"published_at\": \"" ++ now ++ "\"\x7d"),
         .logInfo "Published snapshot"]

/-! ### Inbound dispatch (`on_message` in `DoorBellDevice.setup`, lines 267-271) -/

/-- The branch `Component.handle_message` takes for a message topic:
`handle_state`, `handle_command`, or neither (the method falls through). -/
inductive MsgBranch where
  | stateBranch
  | commandBranch
  | neither
deriving DecidableEq

/-- `on_message`: every component whose `root_topic` is a string prefix of
the message topic (`msg.topic.startswith(cmp.root_topic)`) gets
`handle_message(msg)` called on it, in component order; each call is
paired with the branch `handle_message` then takes. -/
def on_message_calls (comps : List Comp) (topic : String) : List (String × MsgBranch) :=
  (comps.filter (fun c => py_startswith topic (root_topic c))).map
    (fun c => (object_id c.name,
      if topic = state_topic c then MsgBranch.stateBranch
      else if topic = command_topic c then MsgBranch.commandBranch
      else MsgBranch.neither))

/-! ### Timed dispatch: the `time.sleep` in `handle_command` runs on the
single paho network thread that also runs `on_message`, so the pulse
occupies the dispatch loop for `active_time`.  Every other operation is
treated as instantaneous. -/

inductive TimedEv where
  | deliver (topic : String)
  | pulseOn (pin : Nat)
  | pulseOff (pin : Nat)
  | warn (payload : String)
deriving DecidableEq

/-- `Component.handle_message` with explicit time: `handle_state` is a
no-op; a `"PRESS"` on a button command topic performs the pulse,
occupying the thread from `t` to `t + active_time` (the `time.sleep`);
everything else takes no time. -/
def handle_message_timed (c : Comp) (topic payload : String) (t : ℚ) :
    List (ℚ × TimedEv) × ℚ :=
  if topic = state_topic c then ([], t)
  else if topic = command_topic c then
    match c.kind with
    | .button pin a _ =>
        if payload = "PRESS" then ([(t, .pulseOn pin), (t + a, .pulseOff pin)], t + a)
        else ([(t, .warn payload)], t)
    | _ => ([], t)
  else ([], t)

/-- The `on_message` loop body with explicit time threaded through. -/
def on_message_timed (comps : List Comp) (topic payload : String) (t : ℚ) :
    List (ℚ × TimedEv) × ℚ :=
  comps.foldl
    (fun acc c =>
      if py_startswith topic (root_topic c) then
        let r := handle_message_timed c topic payload acc.2
        (acc.1 ++ r.1, r.2)
      else acc)
    ([], t)

/-- An inbound broker message queued for delivery at its arrival time. -/
structure TimedMsg where
  topic : String
  payload : String
  arrival : ℚ

/-- The paho network loop (`client.loop_start()` runs one background
thread): inbound messages are delivered in order, each `on_message`
callback starting only once the previous one has returned and the
message has arrived. -/
def dispatch_loop (comps : List Comp) : List TimedMsg → ℚ → List (ℚ × TimedEv)
  | [], _ => []
  | m :: ms, clock =>
      let start := max clock m.arrival
      let r := on_message_timed comps m.topic m.payload start
      ((start, .deliver m.topic) :: r.1) ++ dispatch_loop comps ms r.2

/-! ### Concrete instances used by the claims -/

/-- The two-button device of the discovery claim:
`[Button("Door Button"), Button("Video Button")]` on GPIO 14 and 15, as
built by the first two `add_button` calls of `DoorBellDevice.setup`. -/
def demo_device : Device :=
  { components :=
      [{ name := "Door Button", kind := .button 14 0.2 (some ⟨14, false, true⟩) },
       { name := "Video Button", kind := .button 15 0.2 (some ⟨15, false, true⟩) }] }

/-- A `ButtonComponent` named `"Door Button"` on GPIO 14 with the given
`active_time`, in Sense role with its edge callback armed. -/
def db_button (a : ℚ) : Comp :=
  { name := "Door Button", kind := .button 14 a (some ⟨14, false, true⟩) }

/-- A `ButtonComponent` named `"Video Button"` on GPIO 15. -/
def vb_button (a : ℚ) : Comp :=
  { name := "Video Button", kind := .button 15 a (some ⟨15, false, true⟩) }

def db_cmd_topic : String := "home/doorbell/door_button/command"

def vb_cmd_topic : String := "home/doorbell/video_button/command"

/-- First button of the duplicate-registration run. -/
def dup_btn1 : Comp := { name := "Door Button", kind := .button 14 0.2 (some ⟨14, false, true⟩) }

/-- Second button of the duplicate-registration run: a different name that
maps to the same object id `"door_button"`. -/
def dup_btn2 : Comp := { name := "door button", kind := .button 15 0.2 (some ⟨15, false, true⟩) }

/-- A button named `"Door"`, whose root topic is a string prefix of the
root topic of `"Door Button"`. -/
def door_only_button : Comp := { name := "Door", kind := .button 16 0.2 (some ⟨16, false, true⟩) }

end Doorbell

namespace Doorbell

/-! ### Claims -/

/-- C1: for every Button component, handling the inbound command payload
`"PRESS"` performs exactly one pulse: the gpiozero sense input is closed,
a `DigitalOutputDevice(pin, active_high=False)` is opened, driven on,
held for exactly `active_time` (the single `sleep` action), driven off
and closed, and then `configure_input_button` reopens
`Button(pin, pull_up=False)` and re-arms `when_pressed` — so after the
handler returns the component state holds an open input button with its
edge callback armed (Sense role, edge events delivered again). -/
theorem press_command_single_pulse (nm : String) (pin : Nat) (a : ℚ)
    (ib : Option InputButtonCfg) :
    handle_command ⟨nm, .button pin a ib⟩ "PRESS" =
      ([.closeInput pin, .openOutput pin false, .driveOn pin, .sleep a,
        .driveOff pin, .closeOutput pin, .openInput pin false, .armWhenPressed pin],
       ⟨nm, .button pin a (some ⟨pin, false, true⟩)⟩) := rfl

/-- C9: constructing a `ButtonComponent` without an explicit name raises
`AttributeError`, because the default name reads `self.gpio_pin` before
any instance attribute has been assigned. -/
theorem button_default_name_attribute_error (pin : Nat) (a : ℚ) :
    buttonComponentInit pin none a = .error (.attributeError "gpio_pin") := rfl

/-- C6 counterexample: the object id map is not collision-free — the two
distinct names `"AB"` and `"ab"` map to the same object id. -/
theorem object_id_collision : object_id "AB" = object_id "ab" ∧ "AB" ≠ "ab" := by decide

/-- C6 (amended): the object id is a deterministic function of the
component name (`name.lower().replace(' ', '_')`), but it is NOT
collision-free: distinct names (differing in case or in space versus
underscore) map to the same object id. -/
theorem object_id_deterministic_not_collision_free :
    (∀ c1 c2 : Comp, c1.name = c2.name → object_id c1.name = object_id c2.name)
    ∧ ∃ n1 n2 : String, n1 ≠ n2 ∧ object_id n1 = object_id n2 :=
  ⟨fun _ _ h => by rw [h], ⟨"AB", "ab", by decide, by decide⟩⟩

/-- C6 witness: the deterministic half applied at a concrete name. -/
theorem object_id_deterministic_witness :
    object_id (Comp.name ⟨"X Y", .camera⟩) = object_id (Comp.name ⟨"X Y", .camera⟩) :=
  object_id_deterministic_not_collision_free.1 ⟨"X Y", .camera⟩ ⟨"X Y", .camera⟩ rfl

/-- C3 counterexample: registering a second button whose name maps to an
object id already registered does not fail — `add_button` has no
duplicate check, both calls succeed, and the duplicate is appended to the
component collection. -/
theorem duplicate_object_id_not_rejected :
    add_button ⟨[]⟩ 14 (some "Door Button") = .ok (⟨[dup_btn1]⟩, dup_btn1)
    ∧ add_button ⟨[dup_btn1]⟩ 15 (some "door button") = .ok (⟨[dup_btn1, dup_btn2]⟩, dup_btn2)
    ∧ object_id dup_btn2.name = object_id dup_btn1.name :=
  ⟨rfl, rfl, by decide⟩

/-- C3 (amended): `add_button` with an explicit name always succeeds and
appends the new component, with no duplicate-object-id check of any kind:
the result is the same whatever is already in the component collection. -/
theorem add_button_appends_without_check (d : Device) (pin : Nat) (n : String) :
    add_button d pin (some n) =
      .ok ({ d with components :=
               d.components ++ [⟨n, .button pin 0.2 (some ⟨pin, false, true⟩)⟩] },
           ⟨n, .button pin 0.2 (some ⟨pin, false, true⟩)⟩) := rfl

/-- C5: the discovery document of the device with components
`[Button("Door Button"), Button("Video Button")]` has a component map
with exactly two entries, keyed `"door_button"` and `"video_button"`,
each with a distinct `unique_id`, together with the hard-coded device
identity block, origin block, and QoS hint.  (`discovery_payload` is a
Lean function of the device value, hence a pure function of the device
metadata and the ordered component list.) -/
theorem discovery_two_buttons :
    (discovery_payload demo_device).cmps.map Prod.fst = ["door_button", "video_button"]
    ∧ (discovery_payload demo_device).cmps.map (fun p => p.2.unique_id) =
        ["doorbell1234_door_button", "doorbell1234_video_button"]
    ∧ ("doorbell1234_door_button" : String) ≠ "doorbell1234_video_button"
    ∧ (discovery_payload demo_device).qos = 1
    ∧ (discovery_payload demo_device).dev =
        { ids := "doorbell1234", name := "Interfono", mf := "PRIM, S.A.",
          mdl := "UltraGuard", sw := "1.0", sn := "1234567890", hw := "v1" }
    ∧ (discovery_payload demo_device).o =
        { name := "PRIM System", sw := "0.1", url := "https://blog.casalprim.xyz" } := by
  decide

/-- C10: inbound dispatch matches components by string-prefix on the root
topic, so a message on the command topic of `"Door Button"` is handed to
the `handle_message` of both the `"Door"` component (whose root topic
`home/doorbell/door` is a prefix of the message topic) and the owning
`"Door Button"` component — not just the owner.  The non-owner falls
through `handle_message` without matching the state or command branch. -/
theorem message_delivered_to_both_components :
    on_message_calls [door_only_button, db_button 0.2] "home/doorbell/door_button/command" =
      [("door", .neither), ("door_button", .commandBranch)] := by
  decide

/-- C7: for every Camera frame capture, if the external ffmpeg
collaborator fails the error is printed and the method returns before any
publish — neither the binary frame nor the JSON attributes payload is
published; on success both payloads are published. -/
theorem publish_frame_all_or_nothing (nm stderr now : String) (payload : List Nat) :
    publish_frame nm (.error stderr) now = [.logCaptureError stderr]
    ∧ publish_frame nm (.ok payload) now =
        [.writeSnapshotFile payload,
         .pubFrame (root_topic ⟨nm, .camera⟩ ++ "/data") payload,
         .pubAttrs (root_topic ⟨nm, .camera⟩ ++ "/" ++ "json_attributes")
           ("\x7b\"published_at\": \"" ++ now ++ "\"\x7d"),
         .logInfo "Published snapshot"] :=
  ⟨rfl, rfl⟩

/-- Forget the broker outcome of a publish, keeping everything else. -/
def erase_outcome : LifeEv → LifeEv
  | .pub t p r _ => .pub t p r true
  | e => e

/-- Every component kind has an `availability` subtopic, so the dict
lookup in `publish_availability` never raises. -/
lemma dict_get_availability (c : Comp) :
    dict_get (subtopics_dict c) "availability_topic" =
      some (root_topic c ++ "/" ++ "availability") := by
  obtain ⟨nm, k⟩ := c
  cases k <;> rfl

/-- C4: `shutdown` publishes availability `"offline"` for the device and
then for every registered component, in order, strictly before the
component collection is dropped (releasing the pins) and the remaining
teardown runs; and the emitted sequence does not depend on the outcome of
the individual publish attempts (publishes are fire-and-forget). -/
theorem shutdown_offline_before_release (d : Device) (o o2 : Nat → Bool) :
    shutdown d o =
      (LifeEv.pub (ROOT_TOPIC ++ "/availability") "offline" true (o 0) ::
        d.components.enum.map (fun p =>
          LifeEv.pub (root_topic p.2 ++ "/" ++ "availability") "offline" true (o (p.1 + 1))))
      ++ [.releaseComponents, .stopGo2rtc, .loopStop, .disconnect]
    ∧ (shutdown d o).map erase_outcome = (shutdown d o2).map erase_outcome := by
  have key : ∀ oc : Nat → Bool,
      publish_availability d "offline" oc =
        LifeEv.pub (ROOT_TOPIC ++ "/availability") "offline" true (oc 0) ::
          d.components.enum.map (fun p =>
            LifeEv.pub (root_topic p.2 ++ "/" ++ "availability") "offline" true (oc (p.1 + 1))) := by
    intro oc
    unfold publish_availability
    have hf : (fun p : Nat × Comp =>
        match dict_get (subtopics_dict p.2) "availability_topic" with
        | some t => LifeEv.pub t "offline" true (oc (p.1 + 1))
        | none => LifeEv.keyError "availability_topic")
      = fun p : Nat × Comp =>
          LifeEv.pub (root_topic p.2 ++ "/" ++ "availability") "offline" true (oc (p.1 + 1)) := by
      funext p
      rw [dict_get_availability]
    rw [hf]
  have key2 : ∀ oc : Nat → Bool,
      (shutdown d oc).map erase_outcome =
        (LifeEv.pub (ROOT_TOPIC ++ "/availability") "offline" true true ::
          d.components.enum.map (fun p =>
            LifeEv.pub (root_topic p.2 ++ "/" ++ "availability") "offline" true true))
        ++ [.releaseComponents, .stopGo2rtc, .loopStop, .disconnect] := by
    intro oc
    unfold shutdown
    rw [key oc]
    simp only [List.map_append, List.map_cons, List.map_map, erase_outcome]
    rfl
  exact ⟨by unfold shutdown; rw [key o], by rw [key2 o, key2 o2]⟩

/-! ### The timed runs behind the busy-rejection and blocking claims -/

lemma on_message_timed_db (a t : ℚ) :
    on_message_timed [db_button a] db_cmd_topic "PRESS" t =
      ([(t, .pulseOn 14), (t + a, .pulseOff 14)], t + a) := rfl

lemma on_message_timed_db2 (a b t : ℚ) :
    on_message_timed [db_button a, vb_button b] db_cmd_topic "PRESS" t =
      ([(t, .pulseOn 14), (t + a, .pulseOff 14)], t + a) := rfl

lemma on_message_timed_vb2 (a b t : ℚ) :
    on_message_timed [db_button a, vb_button b] vb_cmd_topic "PRESS" t =
      ([(t, .pulseOn 15), (t + b, .pulseOff 15)], t + b) := rfl

/-- A `"PRESS"` delivered at time `0` and a second `"PRESS"` on the same
button arriving at time `t` during the first pulse: the single-threaded
dispatch delivers the second message only at time `a`, when the first
pulse ends, and then performs a second full pulse. -/
lemma twoPressRun_eq (a t : ℚ) (ht : t ≤ a) :
    dispatch_loop [db_button a]
      [⟨db_cmd_topic, "PRESS", 0⟩, ⟨db_cmd_topic, "PRESS", t⟩] 0 =
      [(0, .deliver db_cmd_topic), (0, .pulseOn 14), (a, .pulseOff 14),
       (a, .deliver db_cmd_topic), (a, .pulseOn 14), (a + a, .pulseOff 14)] := by
  have h0 : max (0:ℚ) 0 = 0 := max_self 0
  have h1 : max a t = a := max_eq_left ht
  simp only [dispatch_loop, on_message_timed_db, h0, zero_add, h1,
    List.cons_append, List.nil_append, List.append_nil]

/-- A `"PRESS"` on the door button delivered at time `0` and a `"PRESS"`
on the video button arriving at time `t` during the door pulse: the
second message is delivered only at time `a`, when the sleep ends. -/
lemma c8_run_eq (a t : ℚ) (ht : t ≤ a) :
    dispatch_loop [db_button a, vb_button a]
      [⟨db_cmd_topic, "PRESS", 0⟩, ⟨vb_cmd_topic, "PRESS", t⟩] 0 =
      [(0, .deliver db_cmd_topic), (0, .pulseOn 14), (a, .pulseOff 14),
       (a, .deliver vb_cmd_topic), (a, .pulseOn 15), (a + a, .pulseOff 15)] := by
  have h0 : max (0:ℚ) 0 = 0 := max_self 0
  have h1 : max a t = a := max_eq_left ht
  simp only [dispatch_loop, on_message_timed_db2, on_message_timed_vb2, h0, zero_add, h1,
    List.cons_append, List.nil_append, List.append_nil]

/-- C2 counterexample: with `active_time = 1`, a second `"PRESS"` arriving
at time `1/2` — strictly during the pulse started at time `0` — is not
rejected with any Busy error: the code has no such path.  The paho loop
queues the message, delivers it at time `1`, and the handler performs a
second full pulse (`pulseOn` at `1`). -/
theorem press_during_pulse_not_rejected :
    dispatch_loop [db_button 1]
      [⟨db_cmd_topic, "PRESS", 0⟩, ⟨db_cmd_topic, "PRESS", 1/2⟩] 0 =
      [(0, .deliver db_cmd_topic), (0, .pulseOn 14), (1, .pulseOff 14),
       (1, .deliver db_cmd_topic), (1, .pulseOn 14), (2, .pulseOff 14)]
    ∧ (0:ℚ) < 1/2 ∧ (1/2:ℚ) < 1 := by
  refine ⟨?_, by norm_num, by norm_num⟩
  have h := twoPressRun_eq 1 (1/2) (by norm_num)
  norm_num at h
  exact h

/-- C2 (amended): a `"PRESS"` arriving at time `t` while a pulse of
duration `a` is in progress on the same pin is neither rejected nor
dropped: the single-threaded paho dispatch queues it, the in-progress
pulse is neither extended nor restarted (it still ends at `a`), and the
queued command is handled when the pulse ends, producing a second full
pulse from `a` to `a + a`.  No Busy error exists in the code. -/
theorem press_during_pulse_queued_not_busy (a t : ℚ) (_h0 : 0 ≤ t) (ht : t ≤ a) :
    dispatch_loop [db_button a]
      [⟨db_cmd_topic, "PRESS", 0⟩, ⟨db_cmd_topic, "PRESS", t⟩] 0 =
      [(0, .deliver db_cmd_topic), (0, .pulseOn 14), (a, .pulseOff 14),
       (a, .deliver db_cmd_topic), (a, .pulseOn 14), (a + a, .pulseOff 14)] :=
  twoPressRun_eq a t ht

/-- C2 witness: the amended theorem at `active_time = 2`, second arrival
at `1`. -/
theorem press_during_pulse_queued_not_busy_witness :
    dispatch_loop [db_button 2]
      [⟨db_cmd_topic, "PRESS", 0⟩, ⟨db_cmd_topic, "PRESS", 1⟩] 0 =
      [(0, .deliver db_cmd_topic), (0, .pulseOn 14), (2, .pulseOff 14),
       (2, .deliver db_cmd_topic), (2, .pulseOn 14), (2 + 2, .pulseOff 14)] :=
  press_during_pulse_queued_not_busy 2 1 (by norm_num) (by norm_num)

/-- C8 counterexample: with `active_time = 1` on the door button, a
`"PRESS"` for the video button (a different pin) arriving at time `1/2` —
during the door pulse — is delivered to `on_message` only at time `1`:
the blocking `time.sleep` of the pulse runs on the single paho network
thread, so it does block the global inbound-message dispatch loop. -/
theorem pulse_blocks_dispatch_of_other_message :
    dispatch_loop [db_button 1, vb_button 1]
      [⟨db_cmd_topic, "PRESS", 0⟩, ⟨vb_cmd_topic, "PRESS", 1/2⟩] 0 =
      [(0, .deliver db_cmd_topic), (0, .pulseOn 14), (1, .pulseOff 14),
       (1, .deliver vb_cmd_topic), (1, .pulseOn 15), (2, .pulseOff 15)]
    ∧ (0:ℚ) < 1/2 ∧ (1/2:ℚ) < 1 := by
  refine ⟨?_, by norm_num, by norm_num⟩
  have h := c8_run_eq 1 (1/2) (by norm_num)
  norm_num at h
  exact h

/-- C8 (amended): the blocking wait of a pulse runs on the single paho
network thread, so it blocks the global inbound-message dispatch loop: a
message for another pin arriving at time `t` during a pulse of duration
`a` is delivered only at time `a`, when the sleep returns.  (GPIO sense
callbacks run on separate gpiozero threads and are outside this model.) -/
theorem sleep_blocks_dispatch_until_pulse_end (a t : ℚ) (_h0 : 0 ≤ t) (ht : t ≤ a) :
    dispatch_loop [db_button a, vb_button a]
      [⟨db_cmd_topic, "PRESS", 0⟩, ⟨vb_cmd_topic, "PRESS", t⟩] 0 =
      [(0, .deliver db_cmd_topic), (0, .pulseOn 14), (a, .pulseOff 14),
       (a, .deliver vb_cmd_topic), (a, .pulseOn 15), (a + a, .pulseOff 15)] :=
  c8_run_eq a t ht

/-- C8 witness: the amended theorem at `active_time = 2`, arrival `1`. -/
theorem sleep_blocks_dispatch_until_pulse_end_witness :
    dispatch_loop [db_button 2, vb_button 2]
      [⟨db_cmd_topic, "PRESS", 0⟩, ⟨vb_cmd_topic, "PRESS", 1⟩] 0 =
      [(0, .deliver db_cmd_topic), (0, .pulseOn 14), (2, .pulseOff 14),
       (2, .deliver vb_cmd_topic), (2, .pulseOn 15), (2 + 2, .pulseOff 15)] :=
  sleep_blocks_dispatch_until_pulse_end 2 1 (by norm_num) (by norm_num)

end Doorbell
